import Mathlib

/-!
Verification development for the log-file analysis service (logcode.py).

The embedding below translates the core of the source file:
  generate_log_id, parse_log_line, read_logs, get_logs, get_log_stats,
  get_log_by_id,
together with the pieces of the Python/runtime behaviour they rely on
(str.strip, str.split, UTF-8 encoding, SHA-1 hashing, dict update
semantics).  The free-form date parser (dateutil.parser.parse) and the
directory/file system are third-party/OS collaborators, so the operations
are parameterised over an abstract date parser and take the directory
contents as data; a concrete ISO-style parser instance is provided for
evaluation at concrete inputs.
-/

/-! Python string primitives -/

/-- Whitespace recognised by Python str.strip (ASCII part, which is all the
log pipeline can encounter on the ends of a line). -/
def isPySpace (c : Char) : Bool :=
  decide (c = ' ') || decide (c = '\t') || decide (c = '\n') ||
  decide (c = '\r') || decide (c = Char.ofNat 11) || decide (c = Char.ofNat 12)

/-- Model of Python str.strip(): drop leading and trailing whitespace. -/
def pyStrip (s : String) : String :=
  String.mk (((s.data.dropWhile isPySpace).reverse.dropWhile isPySpace).reverse)

/-- Split a character list at every occurrence of the separator, keeping
empty segments, exactly like Python str.split(sep). -/
def splitOnChar (sep : Char) : List Char → List (List Char)
  | [] => [[]]
  | c :: rest =>
    let r := splitOnChar sep rest
    if c = sep then [] :: r
    else
      match r with
      | [] => [[c]]
      | h :: t => (c :: h) :: t

/-- Model of Python s.split of a string on the tab character. -/
def pySplitTab (s : String) : List String :=
  (splitOnChar '\t' s.data).map (fun cs => String.mk cs)

/-- Boolean test that the first list is an initial segment of the second. -/
def listStartsWith : List Char → List Char → Bool
  | [], _ => true
  | _ :: _, [] => false
  | a :: as, b :: bs => decide (a = b) && listStartsWith as bs

/-- Model of Python str.endswith. -/
def strEndsWith (s suf : String) : Bool :=
  listStartsWith suf.data.reverse s.data.reverse

/-! UTF-8 encoding (Python str.encode()) -/

/-- Standard UTF-8 encoding of a single code point, as a list of byte
values. -/
def utf8EncodeChar (c : Char) : List Nat :=
  let n := c.toNat
  if n < 128 then [n]
  else if n < 2048 then
    [192 ||| (n >>> 6), 128 ||| (n &&& 63)]
  else if n < 65536 then
    [224 ||| (n >>> 12), 128 ||| ((n >>> 6) &&& 63), 128 ||| (n &&& 63)]
  else
    [240 ||| (n >>> 18), 128 ||| ((n >>> 12) &&& 63),
     128 ||| ((n >>> 6) &&& 63), 128 ||| (n &&& 63)]

/-- Model of Python str.encode(): the UTF-8 bytes of a string. -/
def utf8Bytes (s : String) : List Nat :=
  (s.data.map utf8EncodeChar).flatten

/-! SHA-1 (hashlib.sha1) -/

/-- Rotate a 32-bit word left by k bits. -/
def rotl32 (n k : Nat) : Nat :=
  ((n <<< k) ||| (n >>> (32 - k))) % 4294967296

/-- Group a list into consecutive chunks of n elements (the accumulator
holds the current chunk reversed). -/
def chunkList (n : Nat) : List Nat → List Nat → List (List Nat)
  | [], acc => if acc.isEmpty then [] else [acc.reverse]
  | b :: rest, acc =>
    let acc2 := b :: acc
    if n ≤ acc2.length then acc2.reverse :: chunkList n rest []
    else chunkList n rest acc2

/-- Big-endian word value of a list of bytes. -/
def beWord (bytes : List Nat) : Nat :=
  bytes.foldl (fun a b => a * 256 + b) 0

/-- Message-schedule extension: append k further words, each the 1-bit left
rotation of the xor of the words 3, 8, 14 and 16 positions back. -/
def extendW : List Nat → Nat → List Nat
  | w, 0 => w
  | w, k + 1 =>
    let m := w.length
    let x := (w.getD (m - 3) 0) ^^^ (w.getD (m - 8) 0) ^^^
             (w.getD (m - 14) 0) ^^^ (w.getD (m - 16) 0)
    extendW (w ++ [rotl32 x 1]) k

/-- Round function of SHA-1. -/
def sha1F (i b c d : Nat) : Nat :=
  if i < 20 then (b &&& c) ||| ((b ^^^ 4294967295) &&& d)
  else if i < 40 then b ^^^ c ^^^ d
  else if i < 60 then (b &&& c) ||| (b &&& d) ||| (c &&& d)
  else b ^^^ c ^^^ d

/-- Round constants of SHA-1. -/
def sha1K (i : Nat) : Nat :=
  if i < 20 then 1518500249
  else if i < 40 then 1859775393
  else if i < 60 then 2400959708
  else 3395469782

/-- The 80 compression rounds over the message schedule. -/
def sha1Rounds : List Nat → Nat → Nat → Nat → Nat → Nat → Nat →
    Nat × Nat × Nat × Nat × Nat
  | [], _, a, b, c, d, e => (a, b, c, d, e)
  | w :: ws, i, a, b, c, d, e =>
    let temp := (rotl32 a 5 + sha1F i b c d + e + sha1K i + w) % 4294967296
    sha1Rounds ws (i + 1) temp a (rotl32 b 30) c d

/-- Process one 64-byte chunk, updating the five hash words. -/
def sha1Chunk (hs : Nat × Nat × Nat × Nat × Nat) (chunk : List Nat) :
    Nat × Nat × Nat × Nat × Nat :=
  let ws := extendW ((chunkList 4 chunk []).map beWord) 64
  match hs with
  | (h0, h1, h2, h3, h4) =>
    match sha1Rounds ws 0 h0 h1 h2 h3 h4 with
    | (a, b, c, d, e) =>
      ((h0 + a) % 4294967296, (h1 + b) % 4294967296, (h2 + c) % 4294967296,
       (h3 + d) % 4294967296, (h4 + e) % 4294967296)

/-- Number of zero bytes of SHA-1 padding for a message of the given byte
length. -/
def padZeros (len : Nat) : Nat :=
  (120 - (len + 1) % 64) % 64

/-- The 8-byte big-endian encoding of the bit length. -/
def lenBytes (n : Nat) : List Nat :=
  [(n >>> 56) &&& 255, (n >>> 48) &&& 255, (n >>> 40) &&& 255,
   (n >>> 32) &&& 255, (n >>> 24) &&& 255, (n >>> 16) &&& 255,
   (n >>> 8) &&& 255, n &&& 255]

/-- Lower-case hexadecimal digit. -/
def hexDigit (n : Nat) : Char :=
  if n < 10 then Char.ofNat (48 + n) else Char.ofNat (87 + n)

/-- Eight-hex-digit rendering of a 32-bit word. -/
def toHex8 (n : Nat) : String :=
  String.mk
    [hexDigit ((n >>> 28) &&& 15), hexDigit ((n >>> 24) &&& 15),
     hexDigit ((n >>> 20) &&& 15), hexDigit ((n >>> 16) &&& 15),
     hexDigit ((n >>> 12) &&& 15), hexDigit ((n >>> 8) &&& 15),
     hexDigit ((n >>> 4) &&& 15), hexDigit (n &&& 15)]

/-- Hex-encoded SHA-1 digest of a byte sequence (hashlib.sha1(..).hexdigest()). -/
def sha1HexBytes (msg : List Nat) : String :=
  let padded := msg ++ [128] ++ List.replicate (padZeros msg.length) 0 ++
    lenBytes (msg.length * 8)
  match (chunkList 64 padded []).foldl sha1Chunk
      (1732584193, 4023233417, 2562383102, 271733878, 3285377520) with
  | (h0, h1, h2, h3, h4) =>
    toHex8 h0 ++ toHex8 h1 ++ toHex8 h2 ++ toHex8 h3 ++ toHex8 h4

/-- Hex-encoded SHA-1 digest of the UTF-8 bytes of a string. -/
def sha1HexOfString (s : String) : String :=
  sha1HexBytes (utf8Bytes s)

/-! Date parsing and rendering.

The source parses timestamps with dateutil.parser.parse, a permissive
third-party parser, and renders them with datetime.isoformat.  The query
operations below are parameterised over an abstract parser
(String → Option Int, where Int is an order-respecting encoding of the
date-time value); dparseISO is a concrete instance for evaluating the
theorems at concrete inputs. -/

/-- Decimal digit test. -/
def isDigitCh (c : Char) : Bool :=
  decide ('0' ≤ c) && decide (c ≤ '9')

/-- Value of a decimal digit character. -/
def dval (c : Char) : Nat :=
  c.toNat - 48

/-- Modelled from the spec: the permissive free-form date parser
(dateutil.parser.parse) is third-party code, not part of src/.  This
instance accepts the ISO forms YYYY-MM-DD and YYYY-MM-DD HH:MM:SS (with a
space or a capital T as separator), on which the real parser agrees, and
rejects everything else (in particular the empty string, which the real
parser also rejects).  The result is an order-preserving integer encoding
of the date-time. -/
def dparseISO (s : String) : Option Int :=
  match s.data with
  | [y1, y2, y3, y4, '-', o1, o2, '-', d1, d2] =>
    if isDigitCh y1 && isDigitCh y2 && isDigitCh y3 && isDigitCh y4 &&
        isDigitCh o1 && isDigitCh o2 && isDigitCh d1 && isDigitCh d2 then
      some (Int.ofNat
        (((((dval y1 * 10 + dval y2) * 10 + dval y3) * 10 + dval y4) * 10000 +
          (dval o1 * 10 + dval o2) * 100 + (dval d1 * 10 + dval d2)) * 1000000))
    else none
  | [y1, y2, y3, y4, '-', o1, o2, '-', d1, d2, sep, h1, h2, ':', n1, n2, ':', s1, s2] =>
    if (decide (sep = ' ') || decide (sep = 'T')) &&
        isDigitCh y1 && isDigitCh y2 && isDigitCh y3 && isDigitCh y4 &&
        isDigitCh o1 && isDigitCh o2 && isDigitCh d1 && isDigitCh d2 &&
        isDigitCh h1 && isDigitCh h2 && isDigitCh n1 && isDigitCh n2 &&
        isDigitCh s1 && isDigitCh s2 then
      some (Int.ofNat
        (((((dval y1 * 10 + dval y2) * 10 + dval y3) * 10 + dval y4) * 10000 +
          (dval o1 * 10 + dval o2) * 100 + (dval d1 * 10 + dval d2)) * 1000000 +
         (dval h1 * 10 + dval h2) * 10000 + (dval n1 * 10 + dval n2) * 100 +
         (dval s1 * 10 + dval s2)))
    else none
  | _ => none

/-- Modelled from the library: datetime.isoformat renders the structured
date-time as an ISO-8601 string; on the abstract integer encoding it is
modelled as an injective rendering to a string. -/
def isoformat (t : Int) : String :=
  toString t

/-! Data model -/

/-- A parsed log entry, as built by parse_log_line (the dict with keys id,
timestamp, level, component, message; the timestamp still structured). -/
structure LogEntry where
  id : String
  timestamp : Int
  level : String
  component : String
  message : String
  deriving DecidableEq, Repr

/-- A log entry as returned to the caller, its timestamp projected to an
ISO-8601 string. -/
structure LogEntryOut where
  id : String
  timestamp : String
  level : String
  component : String
  message : String
  deriving DecidableEq, Repr

/-- The output projection applied before an entry is returned
(log_copy with log_copy timestamp set to its isoformat). -/
def projOut (e : LogEntry) : LogEntryOut :=
  { id := e.id, timestamp := isoformat e.timestamp, level := e.level,
    component := e.component, message := e.message }

/-- The error outcomes of the endpoints: HTTPException(400, invalid
timestamp), HTTPException(404, not found), and an uncaught OS error
escaping from the file scan. -/
inductive ApiError where
  | invalidTimestamp
  | notFound
  | ioError
  deriving DecidableEq, Repr

/-- A file of the log directory: its name and, when it can be opened and
read, its content as the list of raw lines (each as produced by Python
file iteration, trailing newline included). -/
structure PyFile where
  name : String
  content : Option (List String)
  deriving DecidableEq, Repr

/-! The source functions -/

/-- Translation of generate_log_id: hex SHA-1 of the encoded raw line. -/
def generate_log_id (raw_line : String) : String :=
  sha1HexOfString raw_line

/-- Translation of parse_log_line: strip the line, split on tab, require
exactly 4 parts, parse the first as a date-time (None on failure), and
build the entry; the id hashes the raw unstripped line. -/
def parse_log_line (dparse : String → Option Int) (line : String) :
    Option LogEntry :=
  let parts := pySplitTab (pyStrip line)
  if parts.length = 4 then
    match dparse (parts.getD 0 ("")) with
    | some t =>
      some { id := generate_log_id line, timestamp := t,
             level := parts.getD 1 (""), component := parts.getD 2 (""),
             message := parts.getD 3 ("") }
    | none => none
  else none

/-- Scan of the files of an existing directory, in listing order: each
name ending in .log is opened and its lines parsed, unparsable lines
skipped; a file that cannot be opened raises, which aborts the whole
scan (the source has no per-file error handling). -/
def readFiles (dparse : String → Option Int) :
    List PyFile → Except ApiError (List LogEntry)
  | [] => Except.ok []
  | f :: rest =>
    if strEndsWith f.name (".log") then
      match f.content with
      | none => Except.error ApiError.ioError
      | some lines =>
        match readFiles dparse rest with
        | Except.error err => Except.error err
        | Except.ok tail =>
          Except.ok (lines.filterMap (parse_log_line dparse) ++ tail)
    else readFiles dparse rest

/-- Translation of read_logs: a nonexistent directory (none) yields
nothing; otherwise the files are scanned. -/
def read_logs (dparse : String → Option Int)
    (dir : Option (List PyFile)) : Except ApiError (List LogEntry) :=
  match dir with
  | none => Except.ok []
  | some files => readFiles dparse files

/-- Translation of the bound parsing of get_logs: a missing or falsy
(empty) parameter stays None; otherwise a parse failure raises the
invalid-timestamp error. -/
def parseBound (dparse : String → Option Int) :
    Option String → Except ApiError (Option Int)
  | none => Except.ok none
  | some s =>
    if s = "" then Except.ok none
    else
      match dparse s with
      | some t => Except.ok (some t)
      | none => Except.error ApiError.invalidTimestamp

/-- The test of the first two continue-conditions of the loop of
get_logs: a falsy (missing or empty) string parameter filters nothing, a
truthy one requires equality. -/
def passStr (o : Option String) (x : String) : Bool :=
  match o with
  | none => true
  | some l => if l = "" then true else decide (x = l)

/-- The test of the start-bound continue-condition: entries strictly
before a present start bound are skipped. -/
def passLow (o : Option Int) (ts : Int) : Bool :=
  match o with
  | none => true
  | some s => decide (s ≤ ts)

/-- The test of the end-bound continue-condition: entries strictly after
a present end bound are skipped. -/
def passHigh (o : Option Int) (ts : Int) : Bool :=
  match o with
  | none => true
  | some t => decide (ts ≤ t)

/-- Translation of the four continue-conditions of the loop of get_logs:
an entry is kept unless a truthy level or component mismatches, or a
present bound excludes its timestamp. -/
def keepLog (level component : Option String) (sdt edt : Option Int)
    (e : LogEntry) : Bool :=
  passStr level e.level && passStr component e.component &&
  passLow sdt e.timestamp && passHigh edt e.timestamp

/-- The response of the logs endpoint. -/
structure LogsResult where
  count : Nat
  logs : List LogEntryOut
  deriving DecidableEq, Repr

/-- Translation of get_logs: parse both bounds (either failure raises
invalid timestamp, before any log entry is read), then collect the
entries passing the four filters, each projected for output. -/
def get_logs (dparse : String → Option Int) (dir : Option (List PyFile))
    (level component start_time end_time : Option String) :
    Except ApiError LogsResult :=
  match parseBound dparse start_time with
  | Except.error err => Except.error err
  | Except.ok sdt =>
    match parseBound dparse end_time with
    | Except.error err => Except.error err
    | Except.ok edt =>
      match read_logs dparse dir with
      | Except.error err => Except.error err
      | Except.ok entries =>
        let outs :=
          (entries.filter (fun e => keepLog level component sdt edt e)).map
            projOut
        Except.ok { count := outs.length, logs := outs }

/-! Statistics -/

/-- The response of the stats endpoint; the two mappings are Python dicts,
modelled as insertion-ordered association lists. -/
structure Stats where
  total_logs : Nat
  by_level : List (String × Nat)
  by_component : List (String × Nat)
  deriving DecidableEq, Repr

/-- Python dict.get(k, 0). -/
def dictGet : List (String × Nat) → String → Nat
  | [], _ => 0
  | (k2, v) :: rest, k => if k2 = k then v else dictGet rest k

/-- Python dict assignment d[k] = v: update the existing key in place or
append it. -/
def dictSet : List (String × Nat) → String → Nat → List (String × Nat)
  | [], k, v => [(k, v)]
  | (k2, v2) :: rest, k, v =>
    if k2 = k then (k2, v) :: rest else (k2, v2) :: dictSet rest k v

/-- The counter update d[k] = d.get(k, 0) + 1. -/
def bump (m : List (String × Nat)) (k : String) : List (String × Nat) :=
  dictSet m k (dictGet m k + 1)

/-- One iteration of the loop of get_log_stats. -/
def statsFold (s : Stats) (e : LogEntry) : Stats :=
  { total_logs := s.total_logs + 1, by_level := bump s.by_level e.level,
    by_component := bump s.by_component e.component }

/-- The aggregation of get_log_stats over a list of entries. -/
def statsOf (entries : List LogEntry) : Stats :=
  entries.foldl statsFold { total_logs := 0, by_level := [], by_component := [] }

/-- Translation of get_log_stats: stream every entry once, incrementing
the total and the two mappings. -/
def get_log_stats (dparse : String → Option Int)
    (dir : Option (List PyFile)) : Except ApiError Stats :=
  match read_logs dparse dir with
  | Except.error err => Except.error err
  | Except.ok entries => Except.ok (statsOf entries)

/-- Sum of the values of a dict. -/
def sumVals (m : List (String × Nat)) : Nat :=
  (m.map Prod.snd).sum

/-! Lookup by id -/

/-- The loop of get_log_by_id: first entry whose id equals the requested
one. -/
def findById : List LogEntry → String → Option LogEntry
  | [], _ => none
  | e :: rest, lid => if e.id = lid then some e else findById rest lid

/-- Translation of get_log_by_id: scan the entries for the id; the match
is returned with its timestamp projected, otherwise 404. -/
def get_log_by_id (dparse : String → Option Int)
    (dir : Option (List PyFile)) (log_id : String) :
    Except ApiError LogEntryOut :=
  match read_logs dparse dir with
  | Except.error err => Except.error err
  | Except.ok entries =>
    match findById entries log_id with
    | some e => Except.ok (projOut e)
    | none => Except.error ApiError.notFound

/-! Spec-side predicates (for the refinement claims about the filtering
policy, these follow the specification text rather than the code) -/

/-- The inclusion formula of the specification for listFiltered, read
literally: a filter parameter is absent exactly when it is not supplied;
both time bounds inclusive. -/
def specIncludedC1 (level component : Option String) (sdt edt : Option Int)
    (e : LogEntry) : Prop :=
  (level = none ∨ level = some e.level) ∧
  (component = none ∨ component = some e.component) ∧
  (sdt = none ∨ ∃ s, sdt = some s ∧ s ≤ e.timestamp) ∧
  (edt = none ∨ ∃ t, edt = some t ∧ e.timestamp ≤ t)

/-- The inclusion formula as amended: a string filter also counts as
absent when it is supplied as the empty string, since the code treats
falsy parameters as missing. -/
def specIncludedC1Amended (level component : Option String)
    (sdt edt : Option Int) (e : LogEntry) : Prop :=
  (level = none ∨ level = some ("") ∨ level = some e.level) ∧
  (component = none ∨ component = some ("") ∨ component = some e.component) ∧
  (sdt = none ∨ ∃ s, sdt = some s ∧ s ≤ e.timestamp) ∧
  (edt = none ∨ ∃ t, edt = some t ∧ e.timestamp ≤ t)

/-! Concrete sample data for evaluating the theorems -/

/-- A well-formed raw log line, trailing newline included. -/
def sampleLine : String := "2024-01-01\tERROR\tauth\tlogin failed\n"

/-- The same line with one character changed. -/
def sampleLine2 : String := "2024-01-01\tERROR\tauth\tlogin failed!\n"

/-- The entry parse_log_line builds from sampleLine. -/
def sampleEntry : LogEntry :=
  { id := generate_log_id sampleLine, timestamp := 20240101000000,
    level := "ERROR", component := "auth", message := "login failed" }

/-- The entry parse_log_line builds from sampleLine2. -/
def sampleEntry2 : LogEntry :=
  { id := generate_log_id sampleLine2, timestamp := 20240101000000,
    level := "ERROR", component := "auth", message := "login failed!" }

/-- A directory holding one log file with the sample line. -/
def sampleDir : Option (List PyFile) :=
  some [{ name := "a.log", content := some [sampleLine] }]

/-! Basic facts about parse_log_line -/

/-- A list of length four is the list of its first four elements. -/
theorem list_eq_four (parts : List String) (h : parts.length = 4) :
    parts = [parts.getD 0 (""), parts.getD 1 (""), parts.getD 2 (""),
             parts.getD 3 ("")] := by
  rcases parts with _ | ⟨a, _ | ⟨b, _ | ⟨c, _ | ⟨d, _ | ⟨x, xs⟩⟩⟩⟩⟩ <;>
    simp_all [List.getD]

/-- Anatomy of a successful parse: the line splits (after stripping) into
exactly four parts, the id hashes the raw line, the three string fields
are the split parts verbatim, and the timestamp is the parsed first
part. -/
theorem parse_log_line_eq (dparse : String → Option Int) (line : String)
    (e : LogEntry) (h : parse_log_line dparse line = some e) :
    (pySplitTab (pyStrip line)).length = 4 ∧
    e.id = generate_log_id line ∧
    e.level = (pySplitTab (pyStrip line)).getD 1 ("") ∧
    e.component = (pySplitTab (pyStrip line)).getD 2 ("") ∧
    e.message = (pySplitTab (pyStrip line)).getD 3 ("") ∧
    dparse ((pySplitTab (pyStrip line)).getD 0 ("")) = some e.timestamp := by
  simp only [parse_log_line] at h
  by_cases hlen : (pySplitTab (pyStrip line)).length = 4
  · rw [if_pos hlen] at h
    rcases hd : dparse ((pySplitTab (pyStrip line)).getD 0 ("")) with _ | t
    · rw [hd] at h
      exact absurd h (by simp)
    · rw [hd] at h
      obtain rfl : _ = e := Option.some.inj h
      exact ⟨hlen, rfl, rfl, rfl, rfl, rfl⟩
  · rw [if_neg hlen] at h
    exact absurd h (by simp)

/-- C2: for every raw input line whose split on the tab character (the
split parse performs, of the stripped line) does not yield exactly 4
parts, parse returns absent and no error is raised. -/
theorem c2_wrong_field_count_gives_none (dparse : String → Option Int)
    (line : String) (h : (pySplitTab (pyStrip line)).length ≠ 4) :
    parse_log_line dparse line = none := by
  simp [parse_log_line, h]

/-- Witness for C2 at the concrete malformed line of the specification. -/
theorem c2_witness :
    (pySplitTab (pyStrip ("bad\tline\n"))).length ≠ 4 ∧
    parse_log_line dparseISO ("bad\tline\n") = none :=
  ⟨by decide,
   c2_wrong_field_count_gives_none dparseISO ("bad\tline\n") (by decide)⟩

/-- C8: for every successfully parsed line, level, component and message
are verbatim the second, third and fourth parts of the split the parser
performs; nothing further is trimmed, normalised or case-folded. -/
theorem c8_fields_verbatim (dparse : String → Option Int) (line : String)
    (e : LogEntry) (h : parse_log_line dparse line = some e) :
    ∃ t, pySplitTab (pyStrip line) = [t, e.level, e.component, e.message] := by
  obtain ⟨hlen, -, hl, hc, hm, -⟩ := parse_log_line_eq dparse line e h
  refine ⟨(pySplitTab (pyStrip line)).getD 0 (""), ?_⟩
  rw [hl, hc, hm]
  exact list_eq_four (pySplitTab (pyStrip line)) hlen

/-- Witness for C8 at the sample line. -/
theorem c8_witness :
    parse_log_line dparseISO sampleLine = some sampleEntry ∧
    (∃ t, pySplitTab (pyStrip sampleLine) =
      [t, sampleEntry.level, sampleEntry.component, sampleEntry.message]) :=
  ⟨rfl, c8_fields_verbatim dparseISO sampleLine sampleEntry rfl⟩

/-- C3: the id of every parsed entry is the hex SHA-1 of the raw,
unmodified input line (newline and all, before any trimming); parsing the
same line again gives the same id, and two parsed lines whose raw-line
hashes differ (the collision-resistance assumption) have different ids. -/
theorem c3_id_is_raw_line_sha1 (dparse : String → Option Int) (line : String)
    (e : LogEntry) (h : parse_log_line dparse line = some e) :
    e.id = sha1HexOfString line ∧
    (∀ e2, parse_log_line dparse line = some e2 → e2.id = e.id) ∧
    (∀ dparse2 line2 e2, parse_log_line dparse2 line2 = some e2 →
      sha1HexOfString line2 ≠ sha1HexOfString line → e2.id ≠ e.id) := by
  have hid : e.id = sha1HexOfString line :=
    (parse_log_line_eq dparse line e h).2.1
  refine ⟨hid, ?_, ?_⟩
  · intro e2 h2
    rw [h] at h2
    rw [Option.some.inj h2]
  · intro dparse2 line2 e2 h2 hne
    have hid2 : e2.id = sha1HexOfString line2 :=
      (parse_log_line_eq dparse2 line2 e2 h2).2.1
    rw [hid, hid2]
    exact hne

set_option maxRecDepth 100000 in
/-- Witness for C3: the sample line parses, its id is the SHA-1 of the
raw line, and the one-character variant yields a different id. -/
theorem c3_witness :
    parse_log_line dparseISO sampleLine = some sampleEntry ∧
    sampleEntry.id = sha1HexOfString sampleLine ∧
    parse_log_line dparseISO sampleLine2 = some sampleEntry2 ∧
    sha1HexOfString sampleLine2 ≠ sha1HexOfString sampleLine ∧
    sampleEntry2.id ≠ sampleEntry.id :=
  ⟨rfl,
   (c3_id_is_raw_line_sha1 dparseISO sampleLine sampleEntry rfl).1,
   rfl,
   by decide,
   (c3_id_is_raw_line_sha1 dparseISO sampleLine sampleEntry rfl).2.2
     dparseISO sampleLine2 sampleEntry2 rfl (by decide)⟩

/-! Behaviour of empty-string parameters (C9) -/

/-- An empty-string string filter passes everything, like a missing one. -/
theorem passStr_empty (x : String) : passStr (some ("")) x = passStr none x := by
  simp [passStr]

/-- C9: supplying any of the four query parameters as the empty string
behaves exactly as leaving it out: no InvalidTimestamp, no time bound, no
entry excluded. -/
theorem c9_empty_params_act_absent (dparse : String → Option Int)
    (dir : Option (List PyFile)) (lvl comp st et : Option String) :
    get_logs dparse dir (some ("")) comp st et =
      get_logs dparse dir none comp st et ∧
    get_logs dparse dir lvl (some ("")) st et =
      get_logs dparse dir lvl none st et ∧
    get_logs dparse dir lvl comp (some ("")) et =
      get_logs dparse dir lvl comp none et ∧
    get_logs dparse dir lvl comp st (some ("")) =
      get_logs dparse dir lvl comp st none := by
  refine ⟨?_, ?_, ?_, ?_⟩
  · simp only [get_logs, keepLog, passStr_empty]
  · simp only [get_logs, keepLog, passStr_empty]
  · rfl
  · rfl

/-! Invalid time bounds (C4) -/

/-- A bound either parses (to None when falsy) or raises the
invalid-timestamp error; no other outcome exists. -/
theorem parseBound_cases (dparse : String → Option Int) (o : Option String) :
    (∃ r, parseBound dparse o = Except.ok r) ∨
    parseBound dparse o = Except.error ApiError.invalidTimestamp := by
  rcases o with _ | s
  · exact Or.inl ⟨none, rfl⟩
  · by_cases he : s = ""
    · exact Or.inl ⟨none, by simp [parseBound, he]⟩
    · rcases hp : dparse s with _ | t
      · exact Or.inr (by simp [parseBound, he, hp])
      · exact Or.inl ⟨some t, by simp [parseBound, he, hp]⟩

/-- C4 (amended): whenever a supplied, nonempty start or end bound fails
the date parser, the whole operation fails with the invalid-timestamp
error, for every directory state, so before any log entry is read. -/
theorem c4_invalid_bound_is_hard_error (dparse : String → Option Int)
    (dir : Option (List PyFile)) (lvl comp st et : Option String)
    (h : (∃ s, st = some s ∧ s ≠ "" ∧ dparse s = none) ∨
         (∃ s, et = some s ∧ s ≠ "" ∧ dparse s = none)) :
    get_logs dparse dir lvl comp st et =
      Except.error ApiError.invalidTimestamp := by
  rcases h with ⟨s, rfl, hne, hp⟩ | ⟨s, rfl, hne, hp⟩
  · simp [get_logs, parseBound, hne, hp]
  · rcases parseBound_cases dparse st with ⟨r, hok⟩ | herr
    · rw [get_logs, hok]
      simp [parseBound, hne, hp]
    · simp [get_logs, herr]

/-- Witness for C4 at an unparsable concrete bound. -/
theorem c4_witness :
    (∃ s, (some ("garbage") : Option String) = some s ∧ s ≠ "" ∧
      dparseISO s = none) ∧
    get_logs dparseISO sampleDir none none (some ("garbage")) none =
      Except.error ApiError.invalidTimestamp :=
  ⟨⟨"garbage", rfl, by decide, rfl⟩,
   c4_invalid_bound_is_hard_error dparseISO sampleDir none none
     (some ("garbage")) none (Or.inl ⟨"garbage", rfl, by decide, rfl⟩)⟩

/-- Counterexample to C4 as stated: the empty string is a supplied bound
the permissive parser rejects, yet the operation succeeds instead of
failing with the invalid-timestamp error. -/
theorem c4_counterexample :
    dparseISO ("") = none ∧
    get_logs dparseISO sampleDir none none (some ("")) none =
      Except.ok { count := 1, logs := [projOut sampleEntry] } :=
  ⟨rfl, rfl⟩

/-! The filtering policy (C1) -/

/-- The level/component test agrees with the amended absence formula. -/
theorem passStr_iff (o : Option String) (x : String) :
    passStr o x = true ↔ (o = none ∨ o = some ("") ∨ o = some x) := by
  rcases o with _ | l
  · simp [passStr]
  · by_cases h : l = ""
    · subst h; simp [passStr]
    · simp [passStr, h, eq_comm]

/-- The start-bound test agrees with the spec formula, bound inclusive. -/
theorem passLow_iff (o : Option Int) (ts : Int) :
    passLow o ts = true ↔ (o = none ∨ ∃ s, o = some s ∧ s ≤ ts) := by
  rcases o with _ | s <;> simp [passLow]

/-- The end-bound test agrees with the spec formula, bound inclusive. -/
theorem passHigh_iff (o : Option Int) (ts : Int) :
    passHigh o ts = true ↔ (o = none ∨ ∃ t, o = some t ∧ ts ≤ t) := by
  rcases o with _ | t <;> simp [passHigh]

/-- The loop's keep-test is exactly the amended inclusion formula. -/
theorem keepLog_iff_amended (lvl comp : Option String) (sdt edt : Option Int)
    (e : LogEntry) :
    keepLog lvl comp sdt edt e = true ↔
      specIncludedC1Amended lvl comp sdt edt e := by
  unfold keepLog specIncludedC1Amended
  rw [Bool.and_eq_true, Bool.and_eq_true, Bool.and_eq_true]
  rw [and_assoc, and_assoc]
  exact and_congr (passStr_iff lvl e.level)
    (and_congr (passStr_iff comp e.component)
      (and_congr (passLow_iff sdt e.timestamp) (passHigh_iff edt e.timestamp)))

/-- C1 (amended): once the optional bounds have parsed, the result of
get_logs is exactly the list of entries passing the loop's keep-test,
projected for output, with its count; the keep-test is the spec's
inclusion formula with absent meaning missing-or-empty and both time
bounds inclusive; and a start bound above the end bound keeps nothing,
with no error. -/
theorem c1_filtering_policy (dparse : String → Option Int)
    (dir : Option (List PyFile)) (lvl comp st et : Option String)
    (sdt edt : Option Int) (entries : List LogEntry)
    (hs : parseBound dparse st = Except.ok sdt)
    (he : parseBound dparse et = Except.ok edt)
    (hr : read_logs dparse dir = Except.ok entries) :
    get_logs dparse dir lvl comp st et =
      Except.ok
        { count := (entries.filter (fun e => keepLog lvl comp sdt edt e)).length,
          logs := (entries.filter (fun e => keepLog lvl comp sdt edt e)).map
            projOut } ∧
    (∀ e : LogEntry, keepLog lvl comp sdt edt e = true ↔
      specIncludedC1Amended lvl comp sdt edt e) ∧
    (∀ a b : Int, sdt = some a → edt = some b → b < a →
      entries.filter (fun e => keepLog lvl comp sdt edt e) = []) := by
  refine ⟨by simp [get_logs, hs, he, hr], fun e => keepLog_iff_amended lvl comp sdt edt e, ?_⟩
  rintro a b rfl rfl hlt
  rw [List.filter_eq_nil_iff]
  intro e he2
  simp only [keepLog, passLow, passHigh, Bool.and_eq_true, decide_eq_true_eq]
  rintro ⟨⟨-, h3⟩, h4⟩
  omega

/-- Witness for C1 at a concrete query whose start bound is above its end
bound: the result is empty and not an error. -/
theorem c1_witness :
    parseBound dparseISO (some ("2024-01-02")) =
      Except.ok (some 20240102000000) ∧
    parseBound dparseISO (some ("2024-01-01")) =
      Except.ok (some 20240101000000) ∧
    read_logs dparseISO sampleDir = Except.ok [sampleEntry] ∧
    get_logs dparseISO sampleDir (some ("ERROR")) none (some ("2024-01-02"))
      (some ("2024-01-01")) = Except.ok { count := 0, logs := [] } ∧
    (keepLog (some ("ERROR")) none (some 20240102000000)
        (some 20240101000000) sampleEntry = true ↔
      specIncludedC1Amended (some ("ERROR")) none (some 20240102000000)
        (some 20240101000000) sampleEntry) ∧
    [sampleEntry].filter
      (fun e => keepLog (some ("ERROR")) none (some 20240102000000)
        (some 20240101000000) e) = [] := by
  refine ⟨rfl, rfl, rfl, ?_, ?_, ?_⟩
  · exact ((c1_filtering_policy dparseISO sampleDir (some ("ERROR")) none
      (some ("2024-01-02")) (some ("2024-01-01")) (some 20240102000000)
      (some 20240101000000) [sampleEntry] rfl rfl rfl).1).trans (by rfl)
  · exact (c1_filtering_policy dparseISO sampleDir (some ("ERROR")) none
      (some ("2024-01-02")) (some ("2024-01-01")) (some 20240102000000)
      (some 20240101000000) [sampleEntry] rfl rfl rfl).2.1 sampleEntry
  · exact (c1_filtering_policy dparseISO sampleDir (some ("ERROR")) none
      (some ("2024-01-02")) (some ("2024-01-01")) (some 20240102000000)
      (some 20240101000000) [sampleEntry] rfl rfl rfl).2.2
      20240102000000 20240101000000 rfl rfl (by decide)

/-- Counterexample to C1 as stated: with the level filter supplied as the
empty string, the code includes an entry of level ERROR, although the
spec's formula (absent meaning not supplied) excludes it. -/
theorem c1_counterexample :
    get_logs dparseISO sampleDir (some ("")) none none none =
      Except.ok { count := 1, logs := [projOut sampleEntry] } ∧
    ¬ specIncludedC1 (some ("")) none none none sampleEntry := by
  refine ⟨rfl, ?_⟩
  rintro ⟨hl, -⟩
  rcases hl with h | h
  · exact absurd h (by simp)
  · exact absurd (Option.some.inj h) (by decide)

/-! Lookup by id (C5) -/

/-- The loop of get_log_by_id finds exactly the first entry whose id
matches. -/
theorem findById_eq_find (l : List LogEntry) (lid : String) :
    findById l lid = l.find? (fun e => decide (e.id = lid)) := by
  induction l with
  | nil => rfl
  | cons e rest ih =>
    by_cases h : e.id = lid
    · simp [findById, List.find?, h]
    · simp [findById, List.find?, h, ih]

/-- C5: get_log_by_id scans the entries in scan order and returns the
first one whose id equals the requested id, projected for output, or the
not-found error when the scan completes with no match. -/
theorem c5_get_by_id (dparse : String → Option Int)
    (dir : Option (List PyFile)) (log_id : String) (entries : List LogEntry)
    (hr : read_logs dparse dir = Except.ok entries) :
    get_log_by_id dparse dir log_id =
      match entries.find? (fun e => decide (e.id = log_id)) with
      | some e => Except.ok (projOut e)
      | none => Except.error ApiError.notFound := by
  simp [get_log_by_id, hr, findById_eq_find]

set_option maxRecDepth 100000 in
/-- Witness for C5: looking up the id of the known parsed sample line
returns that entry; looking up an unknown id returns not-found. -/
theorem c5_witness :
    read_logs dparseISO sampleDir = Except.ok [sampleEntry] ∧
    get_log_by_id dparseISO sampleDir sampleEntry.id =
      Except.ok (projOut sampleEntry) ∧
    get_log_by_id dparseISO sampleDir ("missing-id") =
      Except.error ApiError.notFound :=
  ⟨rfl,
   (c5_get_by_id dparseISO sampleDir sampleEntry.id [sampleEntry] rfl).trans
     (by rfl),
   (c5_get_by_id dparseISO sampleDir ("missing-id") [sampleEntry] rfl).trans
     (by rfl)⟩

/-! Statistics (C6, C10) -/

/-- Reading a dict after an assignment: the assigned key now holds the
assigned value, every other key is untouched. -/
theorem dictGet_dictSet (m : List (String × Nat)) (k : String) (v : Nat)
    (k2 : String) :
    dictGet (dictSet m k v) k2 = if k2 = k then v else dictGet m k2 := by
  induction m with
  | nil =>
    by_cases h : k2 = k
    · subst h; simp [dictSet, dictGet]
    · have h2 : ¬k = k2 := fun hh => h hh.symm
      simp [dictSet, dictGet, h, h2]
  | cons p rest ih =>
    obtain ⟨k3, v3⟩ := p
    by_cases h3 : k3 = k
    · subst h3
      by_cases h2 : k3 = k2
      · subst h2; simp [dictSet, dictGet]
      · have h4 : ¬k2 = k3 := fun hh => h2 hh.symm
        simp [dictSet, dictGet, h2, h4]
    · by_cases h2 : k3 = k2
      · subst h2
        simp [dictSet, dictGet, h3]
      · have h4 : ¬k2 = k3 := fun hh => h2 hh.symm
        simp [dictSet, dictGet, h2, h3, h4, ih]

/-- A counter increment raises the value at its key by one and leaves
every other key alone. -/
theorem dictGet_bump (m : List (String × Nat)) (k k2 : String) :
    dictGet (bump m k) k2 = dictGet m k2 + (if k2 = k then 1 else 0) := by
  rw [bump, dictGet_dictSet]
  by_cases h : k2 = k
  · subst h; simp
  · simp [h]

/-- A counter increment raises the sum of the dict's values by one. -/
theorem sumVals_bump (m : List (String × Nat)) (k : String) :
    sumVals (bump m k) = sumVals m + 1 := by
  induction m with
  | nil => rfl
  | cons p rest ih =>
    obtain ⟨k3, v⟩ := p
    by_cases h : k3 = k
    · subst h
      simp [bump, dictSet, dictGet, sumVals]
      omega
    · have hL : bump ((k3, v) :: rest) k = (k3, v) :: bump rest k := by
        simp [bump, dictSet, dictGet, h]
      rw [hL]
      simp only [sumVals, List.map_cons, List.sum_cons] at ih ⊢
      omega

/-- Total after folding the stats update over a list of entries. -/
theorem statsFold_total (es : List LogEntry) :
    ∀ s : Stats, (es.foldl statsFold s).total_logs = s.total_logs + es.length := by
  induction es with
  | nil => intro s; simp
  | cons e rest ih =>
    intro s
    rw [List.foldl_cons, ih]
    simp [statsFold]
    omega

/-- Per-level counter after folding the stats update. -/
theorem statsFold_level (es : List LogEntry) (k : String) :
    ∀ s : Stats, dictGet ((es.foldl statsFold s).by_level) k =
      dictGet s.by_level k +
        (es.filter (fun e => decide (e.level = k))).length := by
  induction es with
  | nil => intro s; simp
  | cons e rest ih =>
    intro s
    rw [List.foldl_cons, ih]
    by_cases h : e.level = k
    · subst h
      simp [statsFold, dictGet_bump, List.filter_cons]
      omega
    · have h2 : ¬k = e.level := fun hh => h hh.symm
      simp [statsFold, dictGet_bump, List.filter_cons, h, h2]

/-- Per-component counter after folding the stats update. -/
theorem statsFold_component (es : List LogEntry) (k : String) :
    ∀ s : Stats, dictGet ((es.foldl statsFold s).by_component) k =
      dictGet s.by_component k +
        (es.filter (fun e => decide (e.component = k))).length := by
  induction es with
  | nil => intro s; simp
  | cons e rest ih =>
    intro s
    rw [List.foldl_cons, ih]
    by_cases h : e.component = k
    · subst h
      simp [statsFold, dictGet_bump, List.filter_cons]
      omega
    · have h2 : ¬k = e.component := fun hh => h hh.symm
      simp [statsFold, dictGet_bump, List.filter_cons, h, h2]

/-- Sum of the level counters after folding the stats update. -/
theorem statsFold_level_sum (es : List LogEntry) :
    ∀ s : Stats, sumVals ((es.foldl statsFold s).by_level) =
      sumVals s.by_level + es.length := by
  induction es with
  | nil => intro s; simp
  | cons e rest ih =>
    intro s
    rw [List.foldl_cons, ih]
    simp [statsFold, sumVals_bump]
    omega

/-- Sum of the component counters after folding the stats update. -/
theorem statsFold_component_sum (es : List LogEntry) :
    ∀ s : Stats, sumVals ((es.foldl statsFold s).by_component) =
      sumVals s.by_component + es.length := by
  induction es with
  | nil => intro s; simp
  | cons e rest ih =>
    intro s
    rw [List.foldl_cons, ih]
    simp [statsFold, sumVals_bump]
    omega

/-- The total of the aggregation counts every entry exactly once. -/
theorem statsOf_total (es : List LogEntry) :
    (statsOf es).total_logs = es.length := by
  rw [statsOf, statsFold_total]
  simp

/-- The level counters of the aggregation count the entries of each
verbatim level value. -/
theorem statsOf_level (es : List LogEntry) (k : String) :
    dictGet (statsOf es).by_level k =
      (es.filter (fun e => decide (e.level = k))).length := by
  rw [statsOf, statsFold_level]
  simp [dictGet]

/-- The component counters of the aggregation count the entries of each
verbatim component value. -/
theorem statsOf_component (es : List LogEntry) (k : String) :
    dictGet (statsOf es).by_component k =
      (es.filter (fun e => decide (e.component = k))).length := by
  rw [statsOf, statsFold_component]
  simp [dictGet]

/-- The level counters of the aggregation sum to the number of entries. -/
theorem statsOf_level_sum (es : List LogEntry) :
    sumVals (statsOf es).by_level = es.length := by
  rw [statsOf, statsFold_level_sum]
  simp [sumVals]

/-- The component counters of the aggregation sum to the number of
entries. -/
theorem statsOf_component_sum (es : List LogEntry) :
    sumVals (statsOf es).by_component = es.length := by
  rw [statsOf, statsFold_component_sum]
  simp [sumVals]

/-- C6: get_log_stats counts every parsed entry exactly once with no
filtering, keyed by the verbatim level and component strings, and its
total equals the sum of the level counters and the sum of the component
counters. -/
theorem c6_stats_totals (dparse : String → Option Int)
    (dir : Option (List PyFile)) (entries : List LogEntry)
    (hr : read_logs dparse dir = Except.ok entries) :
    get_log_stats dparse dir = Except.ok (statsOf entries) ∧
    (statsOf entries).total_logs = entries.length ∧
    sumVals (statsOf entries).by_level = (statsOf entries).total_logs ∧
    sumVals (statsOf entries).by_component = (statsOf entries).total_logs ∧
    (∀ k, dictGet (statsOf entries).by_level k =
      (entries.filter (fun e => decide (e.level = k))).length) ∧
    (∀ k, dictGet (statsOf entries).by_component k =
      (entries.filter (fun e => decide (e.component = k))).length) := by
  refine ⟨by simp [get_log_stats, hr], statsOf_total entries, ?_, ?_,
    statsOf_level entries, statsOf_component entries⟩
  · rw [statsOf_level_sum, statsOf_total]
  · rw [statsOf_component_sum, statsOf_total]

/-- C10: over permuted entry streams, the stats agree: equal totals and
extensionally equal mappings (the notion of identity of Python dicts,
which compare by contents, not insertion order). -/
theorem c10_stats_order_invariant (dparse : String → Option Int)
    (d1 d2 : Option (List PyFile)) (e1 e2 : List LogEntry)
    (h1 : read_logs dparse d1 = Except.ok e1)
    (h2 : read_logs dparse d2 = Except.ok e2)
    (hp : List.Perm e1 e2) :
    get_log_stats dparse d1 = Except.ok (statsOf e1) ∧
    get_log_stats dparse d2 = Except.ok (statsOf e2) ∧
    (statsOf e1).total_logs = (statsOf e2).total_logs ∧
    (∀ k, dictGet (statsOf e1).by_level k = dictGet (statsOf e2).by_level k) ∧
    (∀ k, dictGet (statsOf e1).by_component k =
      dictGet (statsOf e2).by_component k) := by
  refine ⟨by simp [get_log_stats, h1], by simp [get_log_stats, h2], ?_, ?_, ?_⟩
  · rw [statsOf_total, statsOf_total, hp.length_eq]
  · intro k
    rw [statsOf_level, statsOf_level,
      (hp.filter (fun e => decide (e.level = k))).length_eq]
  · intro k
    rw [statsOf_component, statsOf_component,
      (hp.filter (fun e => decide (e.component = k))).length_eq]

/-! Concrete data for the stats witnesses -/

/-- First stats sample line. -/
def statsLineA : String := "2024-01-01\tERROR\tauth\ta\n"

/-- Second stats sample line. -/
def statsLineB : String := "2024-01-02\tINFO\tdb\tb\n"

/-- Third stats sample line. -/
def statsLineC : String := "2024-01-03\tERROR\tauth\tc\n"

/-- The entry of statsLineA. -/
def statsEntryA : LogEntry :=
  { id := generate_log_id statsLineA, timestamp := 20240101000000,
    level := "ERROR", component := "auth", message := "a" }

/-- The entry of statsLineB. -/
def statsEntryB : LogEntry :=
  { id := generate_log_id statsLineB, timestamp := 20240102000000,
    level := "INFO", component := "db", message := "b" }

/-- The entry of statsLineC. -/
def statsEntryC : LogEntry :=
  { id := generate_log_id statsLineC, timestamp := 20240103000000,
    level := "ERROR", component := "auth", message := "c" }

/-- A directory with the three stats lines in one file. -/
def statsDir : Option (List PyFile) :=
  some [{ name := "s.log", content := some [statsLineA, statsLineB, statsLineC] }]

/-- The same directory with the first two lines swapped. -/
def statsDirSwapped : Option (List PyFile) :=
  some [{ name := "s.log", content := some [statsLineB, statsLineA, statsLineC] }]

/-- Witness for C6 at the three-entry directory. -/
theorem c6_witness :
    read_logs dparseISO statsDir =
      Except.ok [statsEntryA, statsEntryB, statsEntryC] ∧
    get_log_stats dparseISO statsDir =
      Except.ok (statsOf [statsEntryA, statsEntryB, statsEntryC]) ∧
    (statsOf [statsEntryA, statsEntryB, statsEntryC]).total_logs = 3 ∧
    sumVals (statsOf [statsEntryA, statsEntryB, statsEntryC]).by_level = 3 ∧
    sumVals (statsOf [statsEntryA, statsEntryB, statsEntryC]).by_component = 3 ∧
    dictGet (statsOf [statsEntryA, statsEntryB, statsEntryC]).by_level
      ("ERROR") = 2 ∧
    dictGet (statsOf [statsEntryA, statsEntryB, statsEntryC]).by_component
      ("db") = 1 := by
  have h := c6_stats_totals dparseISO statsDir
    [statsEntryA, statsEntryB, statsEntryC] rfl
  exact ⟨rfl, h.1, h.2.1.trans (by rfl),
    (h.2.2.1.trans h.2.1).trans (by rfl),
    (h.2.2.2.1.trans h.2.1).trans (by rfl),
    (h.2.2.2.2.1 ("ERROR")).trans (by rfl),
    (h.2.2.2.2.2 ("db")).trans (by rfl)⟩

/-- Witness for C10: the same lines scanned in a different order give the
same total and the same counts at every key probed. -/
theorem c10_witness :
    read_logs dparseISO statsDir =
      Except.ok [statsEntryA, statsEntryB, statsEntryC] ∧
    read_logs dparseISO statsDirSwapped =
      Except.ok [statsEntryB, statsEntryA, statsEntryC] ∧
    List.Perm [statsEntryA, statsEntryB, statsEntryC]
      [statsEntryB, statsEntryA, statsEntryC] ∧
    (statsOf [statsEntryA, statsEntryB, statsEntryC]).total_logs =
      (statsOf [statsEntryB, statsEntryA, statsEntryC]).total_logs ∧
    dictGet (statsOf [statsEntryA, statsEntryB, statsEntryC]).by_level
        ("ERROR") =
      dictGet (statsOf [statsEntryB, statsEntryA, statsEntryC]).by_level
        ("ERROR") ∧
    dictGet (statsOf [statsEntryA, statsEntryB, statsEntryC]).by_component
        ("auth") =
      dictGet (statsOf [statsEntryB, statsEntryA, statsEntryC]).by_component
        ("auth") := by
  have hperm : List.Perm [statsEntryA, statsEntryB, statsEntryC]
      [statsEntryB, statsEntryA, statsEntryC] :=
    List.Perm.swap statsEntryB statsEntryA [statsEntryC]
  have h := c10_stats_order_invariant dparseISO statsDir statsDirSwapped
    [statsEntryA, statsEntryB, statsEntryC]
    [statsEntryB, statsEntryA, statsEntryC] rfl rfl hperm
  exact ⟨rfl, rfl, hperm, h.2.2.1, h.2.2.2.1 ("ERROR"), h.2.2.2.2 ("auth")⟩

/-! Per-file read failures (C7) -/

/-- A directory whose first log file cannot be opened, followed by a
readable one. -/
def badDir : Option (List PyFile) :=
  some [{ name := "bad.log", content := none },
        { name := "good.log", content := some [sampleLine] }]

/-- The same directory without the unreadable file. -/
def goodOnlyDir : Option (List PyFile) :=
  some [{ name := "good.log", content := some [sampleLine] }]

/-- C7 (divergence evidence): one unreadable log file makes the scan and
every query over the directory fail outright — the remaining readable
file's entries are not aggregated and the error is not confined to a side
channel — while the same query over the readable file alone succeeds. -/
theorem c7_file_failure_aborts_scan :
    read_logs dparseISO badDir = Except.error ApiError.ioError ∧
    get_log_stats dparseISO badDir = Except.error ApiError.ioError ∧
    get_logs dparseISO badDir none none none none =
      Except.error ApiError.ioError ∧
    get_log_by_id dparseISO badDir sampleEntry.id =
      Except.error ApiError.ioError ∧
    get_log_stats dparseISO goodOnlyDir = Except.ok (statsOf [sampleEntry]) ∧
    (statsOf [sampleEntry]).total_logs = 1 :=
  ⟨rfl, rfl, rfl, rfl, rfl, rfl⟩
